import Mathlib

/-!
# CardboardTethering: device identity, status codes, worker cancellation, bridge

A shallow embedding of `Source/CardboardTethering/Private/UsbDevice.h` and of
`D3D11Bridge::FinishRendering` from `Source/CardboardTethering/Private/Bridge.cpp`.

`uint16_t` values are natural numbers; the range `< 65536` is stated as a
hypothesis where a result depends on it (only the hexadecimal rendering does).
`int` status codes are integers, `std::string` is `String`.
-/

namespace CardboardTethering

/-! ## `struct UsbDeviceId` -/

/-- The table `UsbDeviceId::ANDROID_DEVICE_VIDS`, entry by entry in source order. -/
def ANDROID_DEVICE_VIDS : List Nat :=
  [0x0502, 0x0b05, 0x413c, 0x0489, 0x04c5, 0x04c5, 0x091e, 0x18d1, 0x201E, 0x109b,
   0x03f0, 0x0bb4, 0x12d1, 0x8087, 0x24e3, 0x2116, 0x0482, 0x17ef, 0x1004, 0x22b8,
   0x0e8d, 0x0409, 0x2080, 0x0955, 0x2257, 0x10a9, 0x1d4d, 0x0471, 0x04da, 0x05c6,
   0x1f53, 0x04e8, 0x04dd, 0x054c, 0x0fce, 0x0fce, 0x2340, 0x0930, 0x19d2]

/-- The two data members of `UsbDeviceId`: `uint16_t vid; uint16_t pid;`. -/
structure UsbDeviceId where
  vid : Nat
  pid : Nat
deriving DecidableEq, Repr

namespace UsbDeviceId

/-- The constructor `UsbDeviceId()`. -/
def ctor0 : UsbDeviceId := ⟨0, 0⟩

/-- The constructor `UsbDeviceId(uint16_t v, uint16_t p)`. -/
def ctor2 (v p : Nat) : UsbDeviceId := ⟨v, p⟩

/-- The constructor `UsbDeviceId(uint16_t v, uint16_t p, int8_t m)`: the
initialiser list is `vid(v), pid(p)`, the interface index `m` is not stored. -/
def ctor3 (v p : Nat) (_m : Int) : UsbDeviceId := ⟨v, p⟩

/-- The member `operator==`: `vid == other.vid && pid == other.pid`. -/
def opEq (self other : UsbDeviceId) : Bool :=
  self.vid == other.vid && self.pid == other.pid

/-- The static member `getAoapIds()`. -/
def getAoapIds : List UsbDeviceId :=
  [ctor2 0x18D1 0x2D00,  -- accessory
   ctor2 0x18D1 0x2D01]  -- accessory + ADB

/-- The loop of `isAoapId` over a vector of ids: return `true` at the first
`id == *this`, `false` when the vector is exhausted. -/
def isAoapIdLoop (self : UsbDeviceId) : List UsbDeviceId → Bool
  | [] => false
  | id :: rest => if opEq id self then true else isAoapIdLoop self rest

/-- The member `isAoapId()`. -/
def isAoapId (self : UsbDeviceId) : Bool :=
  isAoapIdLoop self getAoapIds

/-- The loop of `isAndroidId` over a table of vendor ids: return `true` at the
first `vid == v`, `false` when the table is exhausted. -/
def isAndroidIdLoop (self : UsbDeviceId) : List Nat → Bool
  | [] => false
  | v :: rest => if self.vid == v then true else isAndroidIdLoop self rest

/-- The member `isAndroidId()`. -/
def isAndroidId (self : UsbDeviceId) : Bool :=
  isAndroidIdLoop self ANDROID_DEVICE_VIDS

end UsbDeviceId

/-! ## `struct UsbDeviceDesc` -/

/-- The three data members of `UsbDeviceDesc`. -/
structure UsbDeviceDesc where
  id : UsbDeviceId
  manufacturer : String
  product : String
deriving DecidableEq, Repr

namespace UsbDeviceDesc

/-- The member `isAoapDesc()`. -/
def isAoapDesc (self : UsbDeviceDesc) : Bool :=
  self.id.isAoapId

/-- The member `operator<`. -/
def opLt (self other : UsbDeviceDesc) : Bool :=
  if self.id.vid == other.id.vid then
    decide (self.id.pid < other.id.pid)
  else
    decide (self.id.vid < other.id.vid)

end UsbDeviceDesc

/-! ## `class UsbDevice`: status codes -/

namespace UsbDevice

def STATUS_OK : Int := 0
def STATUS_NOT_FOUND_ERROR : Int := -1
def STATUS_DEVICE_DESCRIPTOR_ERROR : Int := -2
def STATUS_CONFIG_DESCRIPTOR_ERROR : Int := -3
def STATUS_DESCRIPTOR_READ_ERROR : Int := -4
def STATUS_INTERFACE_CLAIM_ERROR : Int := -5
def STATUS_RECEIVE_ERROR : Int := -6
def STATUS_SEND_ERROR : Int := -7
def STATUS_BAD_PROTOCOL_VERSION : Int := -8
def STATUS_LIBUSB_ERROR : Int := -1000
def STATUS_JPEG_ERROR : Int := -2000

/-- The ten error constants of `UsbDevice`, in declaration order. -/
def errorCodes : List Int :=
  [STATUS_NOT_FOUND_ERROR, STATUS_DEVICE_DESCRIPTOR_ERROR, STATUS_CONFIG_DESCRIPTOR_ERROR,
   STATUS_DESCRIPTOR_READ_ERROR, STATUS_INTERFACE_CLAIM_ERROR, STATUS_RECEIVE_ERROR,
   STATUS_SEND_ERROR, STATUS_BAD_PROTOCOL_VERSION, STATUS_LIBUSB_ERROR, STATUS_JPEG_ERROR]

/-- All eleven status constants: `STATUS_OK` followed by the error constants. -/
def statusCodes : List Int := STATUS_OK :: errorCodes

end UsbDevice

/-! ## `UsbDeviceId::toString` -/

/-- The character that stream output in `std::hex` mode (without
`std::uppercase`) prints for one hexadecimal digit `d < 16`: `0`-`9`, `a`-`f`. -/
def hexDigit (d : Nat) : Char :=
  if d < 10 then Char.ofNat (48 + d) else Char.ofNat (87 + d)

/-- The digits that `os << std::hex << n` prints for an unsigned `n`: most
significant first, no leading zero, the single digit `0` for zero. -/
def hexDigits (n : Nat) : List Char :=
  if n < 16 then [hexDigit n] else hexDigits (n / 16) ++ [hexDigit (n % 16)]
termination_by n
decreasing_by omega

/-- The effect of `std::setw(w)` with `std::setfill(c)` and the default
right adjustment on one output item: fill characters are put in front until
the item is `w` characters wide; a wider item is printed unchanged. -/
def padLeft (w : Nat) (c : Char) (item : List Char) : List Char :=
  List.replicate (w - item.length) c ++ item

namespace UsbDeviceId

/-- The member `toString()`: with fill `0` and base 16, `setw(4) << vid`, then
`":"` (the width was reset by the previous item), then `setw(4) << pid`. -/
def toString (self : UsbDeviceId) : String :=
  String.mk (padLeft 4 '0' (hexDigits self.vid) ++ ":".toList ++
    padLeft 4 '0' (hexDigits self.pid))

end UsbDeviceId

/-! ## `class InterruptibleThread` -/

/-- The state of an `InterruptibleThread`: the value held by the
`std::atomic_bool` that `_cancel` points to. The detached thread that the
constructor starts is not part of the state. -/
structure InterruptibleThread where
  _cancel : Bool
deriving DecidableEq, Repr

namespace InterruptibleThread

/-- The constructor: `_cancel = std::make_shared<std::atomic_bool>(false)`. -/
def ctor : InterruptibleThread := ⟨false⟩

/-- The member `cancel()`: `_cancel->store(true)`. -/
def cancel (_self : InterruptibleThread) : InterruptibleThread := ⟨true⟩

/-- The member `isCancelled()`: `return _cancel->load()`; the returned value
and the state after the call. -/
def isCancelled (self : InterruptibleThread) : Bool × InterruptibleThread :=
  (self._cancel, self)

/-- The destructor: `cancel()`. -/
def dtor (self : InterruptibleThread) : InterruptibleThread := cancel self

/-- A call of one of the two public member functions. -/
inductive Call where
  | cancel
  | isCancelled
deriving DecidableEq, Repr

/-- Run a sequence of calls from a state: the values returned by the
`isCancelled()` calls, in order, and the final state. -/
def run (self : InterruptibleThread) : List Call → List Bool × InterruptibleThread
  | [] => ([], self)
  | Call.cancel :: rest => run (cancel self) rest
  | Call.isCancelled :: rest =>
    let r := isCancelled self
    let out := run r.2 rest
    (r.1 :: out.1, out.2)

end InterruptibleThread

/-! ## `FCardboardTethering::D3D11Bridge::FinishRendering` -/

/-- What `FinishRendering` reads of the plugin: the shared pointer
`ActiveUsbDevice`, null (`none`) or pointing to a device. -/
structure FCardboardTethering (Dev : Type) where
  ActiveUsbDevice : Option Dev

/-- A call that `FinishRendering` makes on the active device. -/
inductive DeviceCall (Tex : Type) where
  | sendImage (source : Tex)
deriving DecidableEq, Repr

/-- The member `D3D11Bridge::FinishRendering()`, as the list of `sendImage`
calls it makes. `UsbDevice::isSending` is declared in `UsbDevice.h` and defined
elsewhere, so the value it returns for a device is the parameter `isSending`.
`IsValid() && isSending()` evaluates `isSending()` only on a valid pointer. -/
def FinishRendering {Dev Tex : Type} (isSending : Dev → Bool)
    (Plugin : FCardboardTethering Dev) (RenderTargetTexture : Tex) : List (DeviceCall Tex) :=
  match Plugin.ActiveUsbDevice with
  | none => []
  | some dev =>
    if isSending dev then [DeviceCall.sendImage RenderTargetTexture] else []

/-! ## Helper lemmas on the two membership loops -/

theorem isAoapIdLoop_eq_true_iff (x : UsbDeviceId) (ids : List UsbDeviceId) :
    UsbDeviceId.isAoapIdLoop x ids = true ↔ ∃ id ∈ ids, UsbDeviceId.opEq id x = true := by
  induction ids with
  | nil => simp [UsbDeviceId.isAoapIdLoop]
  | cons id rest ih =>
    by_cases h : UsbDeviceId.opEq id x = true
    · simp [UsbDeviceId.isAoapIdLoop, h]
    · simp [UsbDeviceId.isAoapIdLoop, h, ih]

theorem isAndroidIdLoop_eq_true_iff (x : UsbDeviceId) (vs : List Nat) :
    UsbDeviceId.isAndroidIdLoop x vs = true ↔ x.vid ∈ vs := by
  induction vs with
  | nil => simp [UsbDeviceId.isAndroidIdLoop]
  | cons v rest ih =>
    by_cases h : x.vid = v
    · simp [UsbDeviceId.isAndroidIdLoop, h]
    · simp [UsbDeviceId.isAndroidIdLoop, h, ih]

theorem opEq_eq_true_iff (a b : UsbDeviceId) :
    UsbDeviceId.opEq a b = true ↔ a.vid = b.vid ∧ a.pid = b.pid := by
  simp [UsbDeviceId.opEq]

theorem isAoapId_eq_true_iff (x : UsbDeviceId) :
    x.isAoapId = true ↔
      (x.vid = 0x18D1 ∧ x.pid = 0x2D00) ∨ (x.vid = 0x18D1 ∧ x.pid = 0x2D01) := by
  unfold UsbDeviceId.isAoapId
  rw [isAoapIdLoop_eq_true_iff]
  simp only [UsbDeviceId.getAoapIds, UsbDeviceId.ctor2, List.mem_cons, List.mem_singleton,
    List.not_mem_nil, or_false, exists_eq_or_imp, exists_eq_left, opEq_eq_true_iff]
  constructor
  · rintro (⟨h1, h2⟩ | ⟨h1, h2⟩)
    · exact Or.inl ⟨h1.symm, h2.symm⟩
    · exact Or.inr ⟨h1.symm, h2.symm⟩
  · rintro (⟨h1, h2⟩ | ⟨h1, h2⟩)
    · exact Or.inl ⟨h1.symm, h2.symm⟩
    · exact Or.inr ⟨h1.symm, h2.symm⟩

/-! ## Claims on `UsbDeviceId` and `UsbDeviceDesc` -/

/-- C1: for every id built by the two- or three-argument constructor,
`isAoapId()` is true exactly when `(vid, pid)` is `(0x18D1, 0x2D00)` or
`(0x18D1, 0x2D01)`, these two pairs are the entries of `getAoapIds()`, and the
result for the three-argument constructor does not depend on the interface
index `m`. -/
theorem C1_isAoapId_iff :
    (∀ v p : Nat, (UsbDeviceId.ctor2 v p).isAoapId = true ↔
        ((v = 0x18D1 ∧ p = 0x2D00) ∨ (v = 0x18D1 ∧ p = 0x2D01))) ∧
    (∀ (v p : Nat) (m : Int), (UsbDeviceId.ctor3 v p m).isAoapId = true ↔
        ((v = 0x18D1 ∧ p = 0x2D00) ∨ (v = 0x18D1 ∧ p = 0x2D01))) ∧
    (∀ (v p : Nat) (m m' : Int),
        (UsbDeviceId.ctor3 v p m).isAoapId = (UsbDeviceId.ctor3 v p m').isAoapId ∧
        (UsbDeviceId.ctor3 v p m).isAoapId = (UsbDeviceId.ctor2 v p).isAoapId) ∧
    (UsbDeviceId.getAoapIds.map (fun id => (id.vid, id.pid))
        = [(0x18D1, 0x2D00), (0x18D1, 0x2D01)]) ∧
    (∀ x : UsbDeviceId, x.isAoapId = true ↔
        ∃ id ∈ UsbDeviceId.getAoapIds, id.vid = x.vid ∧ id.pid = x.pid) := by
  refine ⟨fun v p => isAoapId_eq_true_iff _, fun v p m => isAoapId_eq_true_iff _,
    fun v p m m' => ⟨rfl, rfl⟩, rfl, fun x => ?_⟩
  unfold UsbDeviceId.isAoapId
  rw [isAoapIdLoop_eq_true_iff]
  simp only [opEq_eq_true_iff]

/-- C2: `isAndroidId()` is true exactly when the vid occurs in
`ANDROID_DEVICE_VIDS`; so it is true for every table vid with any pid, and for
each vid it is the same for all pids. -/
theorem C2_isAndroidId_iff :
    (∀ v p : Nat, (UsbDeviceId.ctor2 v p).isAndroidId = true ↔ v ∈ ANDROID_DEVICE_VIDS) ∧
    (∀ v ∈ ANDROID_DEVICE_VIDS, ∀ p : Nat, (UsbDeviceId.ctor2 v p).isAndroidId = true) ∧
    (∀ v p p' : Nat,
        (UsbDeviceId.ctor2 v p).isAndroidId = (UsbDeviceId.ctor2 v p').isAndroidId) := by
  have key : ∀ v p : Nat,
      (UsbDeviceId.ctor2 v p).isAndroidId = true ↔ v ∈ ANDROID_DEVICE_VIDS := by
    intro v p
    unfold UsbDeviceId.isAndroidId
    rw [isAndroidIdLoop_eq_true_iff]
    rfl
  refine ⟨key, fun v hv p => (key v p).2 hv, fun v p p' => ?_⟩
  rw [Bool.eq_iff_iff, key, key]

/-- C3: `operator==` ignores the interface index: two ids built with any
interface indices compare equal exactly when their vids and their pids agree;
and `operator==` is reflexive, symmetric and transitive. -/
theorem C3_opEq_equivalence :
    (∀ (v p v' p' : Nat) (m m' : Int),
        UsbDeviceId.opEq (UsbDeviceId.ctor3 v p m) (UsbDeviceId.ctor3 v' p' m') = true ↔
          (v = v' ∧ p = p')) ∧
    (∀ a : UsbDeviceId, UsbDeviceId.opEq a a = true) ∧
    (∀ a b : UsbDeviceId, UsbDeviceId.opEq a b = UsbDeviceId.opEq b a) ∧
    (∀ a b c : UsbDeviceId, UsbDeviceId.opEq a b = true → UsbDeviceId.opEq b c = true →
        UsbDeviceId.opEq a c = true) := by
  refine ⟨fun v p v' p' m m' => opEq_eq_true_iff _ _, fun a => ?_, fun a b => ?_,
    fun a b c hab hbc => ?_⟩
  · simp [UsbDeviceId.opEq]
  · rw [Bool.eq_iff_iff, opEq_eq_true_iff, opEq_eq_true_iff]
    constructor <;> rintro ⟨h1, h2⟩ <;> exact ⟨h1.symm, h2.symm⟩
  · rw [opEq_eq_true_iff] at *
    exact ⟨hab.1.trans hbc.1, hab.2.trans hbc.2⟩

theorem opLt_eq_true_iff (a b : UsbDeviceDesc) :
    UsbDeviceDesc.opLt a b = true ↔
      (a.id.vid < b.id.vid ∨ (a.id.vid = b.id.vid ∧ a.id.pid < b.id.pid)) := by
  unfold UsbDeviceDesc.opLt
  by_cases h : a.id.vid = b.id.vid
  · simp [h]
  · simp [h]

/-- C4: `UsbDeviceDesc::operator<` is the lexicographic order on
`(id.vid, id.pid)` and does not look at the manufacturer and product strings;
it is irreflexive and transitive, and for all `a`, `b` exactly one of `a < b`,
`b < a`, `a.id == b.id` holds. -/
theorem C4_opLt_lexicographic :
    (∀ a b : UsbDeviceDesc, UsbDeviceDesc.opLt a b = true ↔
        (a.id.vid < b.id.vid ∨ (a.id.vid = b.id.vid ∧ a.id.pid < b.id.pid))) ∧
    (∀ (i j : UsbDeviceId) (m p m' p' n q n' q' : String),
        UsbDeviceDesc.opLt ⟨i, m, p⟩ ⟨j, m', p'⟩ = UsbDeviceDesc.opLt ⟨i, n, q⟩ ⟨j, n', q'⟩) ∧
    (∀ a : UsbDeviceDesc, UsbDeviceDesc.opLt a a = false) ∧
    (∀ a b c : UsbDeviceDesc, UsbDeviceDesc.opLt a b = true → UsbDeviceDesc.opLt b c = true →
        UsbDeviceDesc.opLt a c = true) ∧
    (∀ a b : UsbDeviceDesc,
        (UsbDeviceDesc.opLt a b = true ∧ UsbDeviceDesc.opLt b a = false ∧
          UsbDeviceId.opEq a.id b.id = false) ∨
        (UsbDeviceDesc.opLt a b = false ∧ UsbDeviceDesc.opLt b a = true ∧
          UsbDeviceId.opEq a.id b.id = false) ∨
        (UsbDeviceDesc.opLt a b = false ∧ UsbDeviceDesc.opLt b a = false ∧
          UsbDeviceId.opEq a.id b.id = true)) := by
  refine ⟨opLt_eq_true_iff, fun i j m p m' p' n q n' q' => rfl, fun a => ?_,
    fun a b c hab hbc => ?_, fun a b => ?_⟩
  · rw [← Bool.not_eq_true, opLt_eq_true_iff]
    omega
  · rw [opLt_eq_true_iff] at *
    omega
  · simp only [← Bool.not_eq_true, opLt_eq_true_iff, opEq_eq_true_iff]
    omega

/-- C7: the ten error constants are pairwise distinct and strictly negative,
`STATUS_OK` is `0` and is none of them; so among the status constants a status
equals `STATUS_OK` exactly when it is not an error code, and no integer is both
`STATUS_OK` and an error code. -/
theorem C7_status_codes_unambiguous :
    UsbDevice.errorCodes.length = 10 ∧
    UsbDevice.errorCodes.Pairwise (fun x y => x ≠ y) ∧
    (∀ e ∈ UsbDevice.errorCodes, e < 0) ∧
    UsbDevice.STATUS_OK = 0 ∧
    (∀ e ∈ UsbDevice.errorCodes, UsbDevice.STATUS_OK ≠ e) ∧
    (∀ s ∈ UsbDevice.statusCodes, s = UsbDevice.STATUS_OK ↔ s ∉ UsbDevice.errorCodes) ∧
    (∀ s : Int, ¬ (s = UsbDevice.STATUS_OK ∧ s ∈ UsbDevice.errorCodes)) := by
  refine ⟨rfl, by decide, by decide, rfl, by decide, by decide, ?_⟩
  rintro s ⟨rfl, h⟩
  revert h
  decide

/-- C8 (as stated, refuted): `ANDROID_DEVICE_VIDS` lists a vendor id twice: the
entries at positions 4 and 5 are both `0x04c5`, so the table is not free of
duplicates. -/
theorem C8_table_has_duplicate :
    ANDROID_DEVICE_VIDS[4]? = some 0x04c5 ∧ ANDROID_DEVICE_VIDS[5]? = some 0x04c5 ∧
    ¬ (UsbDeviceId.getAoapIds.length = 2 ∧
       UsbDeviceId.getAoapIds.Pairwise (fun a b => UsbDeviceId.opEq a b = false) ∧
       ANDROID_DEVICE_VIDS.length = 39 ∧ ANDROID_DEVICE_VIDS.Nodup) := by
  refine ⟨rfl, rfl, ?_⟩
  rintro ⟨-, -, -, h⟩
  revert h
  decide

/-- C8 (amended): `getAoapIds()` returns exactly 2 pairwise-distinct ids, and
`ANDROID_DEVICE_VIDS` has 39 entries holding 37 distinct vendor ids: `0x04c5`
and `0x0fce` are each listed twice and every other listed id once. -/
theorem C8_table_sizes :
    UsbDeviceId.getAoapIds.length = 2 ∧
    UsbDeviceId.getAoapIds.Pairwise (fun a b => UsbDeviceId.opEq a b = false) ∧
    ANDROID_DEVICE_VIDS.length = 39 ∧
    ANDROID_DEVICE_VIDS.dedup.length = 37 ∧
    ANDROID_DEVICE_VIDS.count 0x04c5 = 2 ∧
    ANDROID_DEVICE_VIDS.count 0x0fce = 2 ∧
    (∀ v ∈ ANDROID_DEVICE_VIDS, v ≠ 0x04c5 → v ≠ 0x0fce → ANDROID_DEVICE_VIDS.count v = 1) := by
  refine ⟨rfl, by decide, rfl, by decide, by decide, by decide, by decide⟩

/-- C9: every accessory-mode id is also a known-Android id, because its vid is
`0x18D1` and `0x18D1` is in `ANDROID_DEVICE_VIDS`. -/
theorem C9_isAoapId_imp_isAndroidId (x : UsbDeviceId) (h : x.isAoapId = true) :
    x.isAndroidId = true ∧ x.vid = 0x18D1 ∧ 0x18D1 ∈ ANDROID_DEVICE_VIDS := by
  have hv : x.vid = 0x18D1 := by
    rcases (isAoapId_eq_true_iff x).1 h with ⟨h1, -⟩ | ⟨h1, -⟩ <;> exact h1
  have hm : 0x18D1 ∈ ANDROID_DEVICE_VIDS := by decide
  refine ⟨?_, hv, hm⟩
  unfold UsbDeviceId.isAndroidId
  rw [isAndroidIdLoop_eq_true_iff, hv]
  exact hm

/-- C9 at the accessory id `18d1:2d00`: it passes `isAoapId()` and therefore
`isAndroidId()`, so a filter on `isAndroidId()` alone keeps it. -/
theorem C9_isAoapId_imp_isAndroidId_witness :
    (UsbDeviceId.ctor2 0x18D1 0x2D00).isAoapId = true ∧
    ((UsbDeviceId.ctor2 0x18D1 0x2D00).isAndroidId = true ∧
      (UsbDeviceId.ctor2 0x18D1 0x2D00).vid = 0x18D1 ∧ 0x18D1 ∈ ANDROID_DEVICE_VIDS) :=
  ⟨by decide, C9_isAoapId_imp_isAndroidId (UsbDeviceId.ctor2 0x18D1 0x2D00) (by decide)⟩

/-! ## Claims on `InterruptibleThread` and the rendering bridge -/

theorem run_of_cancelled (ops : List InterruptibleThread.Call) :
    ∀ t : InterruptibleThread, t._cancel = true →
      (∀ r ∈ (InterruptibleThread.run t ops).1, r = true) ∧
      (InterruptibleThread.run t ops).2._cancel = true := by
  induction ops with
  | nil => intro t ht; simp [InterruptibleThread.run, ht]
  | cons op rest ih =>
    intro t ht
    cases op with
    | cancel => exact ih (InterruptibleThread.cancel t) rfl
    | isCancelled =>
      have h := ih t ht
      simp only [InterruptibleThread.run, InterruptibleThread.isCancelled, List.mem_cons]
      refine ⟨?_, h.2⟩
      rintro r (rfl | hr)
      · exact ht
      · exact h.1 r hr

theorem run_append (ops ops' : List InterruptibleThread.Call) :
    ∀ t : InterruptibleThread,
      InterruptibleThread.run t (ops ++ ops') =
        ((InterruptibleThread.run t ops).1 ++
            (InterruptibleThread.run (InterruptibleThread.run t ops).2 ops').1,
          (InterruptibleThread.run (InterruptibleThread.run t ops).2 ops').2) := by
  induction ops with
  | nil => intro t; simp [InterruptibleThread.run]
  | cons op rest ih =>
    intro t
    cases op with
    | cancel => simpa [InterruptibleThread.run] using ih (InterruptibleThread.cancel t)
    | isCancelled =>
      simp [InterruptibleThread.run, InterruptibleThread.isCancelled, ih t]

/-- C5: the cancellation flag is a one-way latch under the class's own
operations: it is false at construction, `cancel()` and the destructor set it,
`isCancelled()` returns it and leaves it unchanged, `cancel()` is idempotent,
and in every sequence of `cancel()`/`isCancelled()` calls on a new object every
`isCancelled()` after a `cancel()` returns true and the flag stays set. -/
theorem C5_cancel_flag_is_latch :
    InterruptibleThread.ctor._cancel = false ∧
    (InterruptibleThread.isCancelled InterruptibleThread.ctor).1 = false ∧
    (∀ t : InterruptibleThread, (InterruptibleThread.cancel t)._cancel = true) ∧
    (∀ t : InterruptibleThread, (InterruptibleThread.dtor t)._cancel = true) ∧
    (∀ t : InterruptibleThread, InterruptibleThread.isCancelled t = (t._cancel, t)) ∧
    (∀ t : InterruptibleThread,
        InterruptibleThread.cancel (InterruptibleThread.cancel t) = InterruptibleThread.cancel t) ∧
    (∀ (t : InterruptibleThread) (after : List InterruptibleThread.Call),
        (∀ r ∈ (InterruptibleThread.run (InterruptibleThread.cancel t) after).1, r = true) ∧
        (InterruptibleThread.run (InterruptibleThread.cancel t) after).2._cancel = true) ∧
    (∀ before after : List InterruptibleThread.Call,
        (InterruptibleThread.run InterruptibleThread.ctor
            (before ++ InterruptibleThread.Call.cancel :: after)).1 =
          (InterruptibleThread.run InterruptibleThread.ctor before).1 ++
            List.replicate (after.count InterruptibleThread.Call.isCancelled) true ∧
        (InterruptibleThread.run InterruptibleThread.ctor
            (before ++ InterruptibleThread.Call.cancel :: after)).2._cancel = true) := by
  refine ⟨rfl, rfl, fun _ => rfl, fun _ => rfl, fun _ => rfl, fun _ => rfl,
    fun t after => run_of_cancelled after _ rfl, fun before after => ?_⟩
  rw [run_append]
  simp only [InterruptibleThread.run]
  have h := run_of_cancelled after
    (InterruptibleThread.cancel (InterruptibleThread.run InterruptibleThread.ctor before).2) rfl
  refine ⟨?_, h.2⟩
  congr 1
  have hlen : ∀ (ops : List InterruptibleThread.Call) (t : InterruptibleThread),
      (InterruptibleThread.run t ops).1.length = ops.count InterruptibleThread.Call.isCancelled := by
    intro ops
    induction ops with
    | nil => intro t; rfl
    | cons op rest ih =>
      intro t
      cases op with
      | cancel => simpa [InterruptibleThread.run] using ih (InterruptibleThread.cancel t)
      | isCancelled => simp [InterruptibleThread.run, InterruptibleThread.isCancelled, ih t]
  rw [← hlen after
    (InterruptibleThread.cancel (InterruptibleThread.run InterruptibleThread.ctor before).2)]
  exact List.eq_replicate_iff.2 ⟨rfl, h.1⟩

/-- C6 (as stated, refuted): with a valid active device whose `isSending()`
returns true, `FinishRendering` does call `sendImage`; with a valid device
whose `isSending()` returns false it does not. -/
theorem C6_sends_while_isSending :
    FinishRendering (fun d : Bool => d) ⟨some true⟩ (7 : Nat) = [DeviceCall.sendImage 7] ∧
    FinishRendering (fun d : Bool => d) ⟨some false⟩ (7 : Nat) = [] := by
  decide

/-- C6 (amended): `FinishRendering` calls `sendImage` exactly when there is a
valid active device and `isSending()` returns true, then once and with the
render target texture; with no valid device or with `isSending()` false it
makes no call. -/
theorem C6_FinishRendering_gate {Dev Tex : Type} (isSending : Dev → Bool)
    (Plugin : FCardboardTethering Dev) (RenderTargetTexture : Tex) :
    (FinishRendering isSending Plugin RenderTargetTexture =
        [DeviceCall.sendImage RenderTargetTexture] ↔
      ∃ dev, Plugin.ActiveUsbDevice = some dev ∧ isSending dev = true) ∧
    (FinishRendering isSending Plugin RenderTargetTexture = [] ↔
      ¬ ∃ dev, Plugin.ActiveUsbDevice = some dev ∧ isSending dev = true) := by
  unfold FinishRendering
  cases h : Plugin.ActiveUsbDevice with
  | none => simp
  | some dev =>
    by_cases hs : isSending dev = true
    · simp [hs]
    · simp [hs]

/-! ## Claims on `UsbDeviceId::toString` -/

theorem hexDigits_of_lt (m : Nat) (h : m < 16) : hexDigits m = [hexDigit m] := by
  rw [hexDigits, if_pos h]

theorem hexDigits_of_ge (m : Nat) (h : 16 ≤ m) :
    hexDigits m = hexDigits (m / 16) ++ [hexDigit (m % 16)] := by
  rw [hexDigits, if_neg (by omega)]

/-- Below `65536` the padded rendering is the four nibbles, most significant first. -/
theorem padLeft_hexDigits_eq (n : Nat) (h : n < 65536) :
    padLeft 4 '0' (hexDigits n) =
      [hexDigit (n / 4096), hexDigit (n / 256 % 16), hexDigit (n / 16 % 16),
       hexDigit (n % 16)] := by
  have z : hexDigit 0 = '0' := by decide
  by_cases h1 : n < 16
  · have e3 : n / 4096 = 0 := by omega
    have e2 : n / 256 % 16 = 0 := by omega
    have e1 : n / 16 % 16 = 0 := by omega
    have e0 : n % 16 = n := by omega
    rw [hexDigits_of_lt n h1, e3, e2, e1, e0, z]
    rfl
  · by_cases h2 : n < 256
    · have e3 : n / 4096 = 0 := by omega
      have e2 : n / 256 % 16 = 0 := by omega
      have e1 : n / 16 % 16 = n / 16 := by omega
      rw [hexDigits_of_ge n (by omega), hexDigits_of_lt (n / 16) (by omega), e3, e2, e1, z]
      rfl
    · by_cases h3 : n < 4096
      · have e3 : n / 4096 = 0 := by omega
        have e2 : n / 256 % 16 = n / 16 / 16 := by omega
        rw [hexDigits_of_ge n (by omega), hexDigits_of_ge (n / 16) (by omega),
          hexDigits_of_lt (n / 16 / 16) (by omega), e3, e2, z]
        rfl
      · have e3 : n / 4096 = n / 16 / 16 / 16 := by omega
        have e2 : n / 256 % 16 = n / 16 / 16 % 16 := by omega
        rw [hexDigits_of_ge n (by omega), hexDigits_of_ge (n / 16) (by omega),
          hexDigits_of_ge (n / 16 / 16) (by omega),
          hexDigits_of_lt (n / 16 / 16 / 16) (by omega), e3, e2]
        rfl

theorem toString_eq (x : UsbDeviceId) (hv : x.vid < 65536) (hp : x.pid < 65536) :
    x.toString = String.mk
      [hexDigit (x.vid / 4096), hexDigit (x.vid / 256 % 16), hexDigit (x.vid / 16 % 16),
       hexDigit (x.vid % 16), ':',
       hexDigit (x.pid / 4096), hexDigit (x.pid / 256 % 16), hexDigit (x.pid / 16 % 16),
       hexDigit (x.pid % 16)] := by
  unfold UsbDeviceId.toString
  rw [padLeft_hexDigits_eq _ hv, padLeft_hexDigits_eq _ hp]
  rfl

theorem hexDigit_injective :
    ∀ a < 16, ∀ b < 16, hexDigit a = hexDigit b → a = b := by
  decide

/-- Two sample renderings: `18d1:2d00`, and zero padding in `0502:000a`. -/
theorem toString_samples :
    (UsbDeviceId.ctor2 0x18D1 0x2D00).toString = "18d1:2d00" ∧
    (UsbDeviceId.ctor2 0x0502 0x000A).toString = "0502:000a" ∧
    UsbDeviceId.ctor0.toString = "0000:0000" := by
  refine ⟨?_, ?_, ?_⟩
  · rw [toString_eq _ (by decide) (by decide)]; decide
  · rw [toString_eq _ (by decide) (by decide)]; decide
  · rw [toString_eq _ (by decide) (by decide)]; decide

/-- C10: for an id whose vid and pid are 16-bit values, `toString()` is exactly
9 characters: the four hexadecimal digits of the vid (zero-padded, digits taken
from `0123456789abcdef`), a colon, and the four digits of the pid; and two such
ids have the same string exactly when they are `==`. -/
theorem C10_toString_faithful (a b : UsbDeviceId)
    (hav : a.vid < 65536) (hap : a.pid < 65536) (hbv : b.vid < 65536) (hbp : b.pid < 65536) :
    a.toString.length = 9 ∧
    a.toString.data =
      [hexDigit (a.vid / 4096), hexDigit (a.vid / 256 % 16), hexDigit (a.vid / 16 % 16),
       hexDigit (a.vid % 16), ':',
       hexDigit (a.pid / 4096), hexDigit (a.pid / 256 % 16), hexDigit (a.pid / 16 % 16),
       hexDigit (a.pid % 16)] ∧
    (∀ d < 16, "0123456789abcdef".toList[d]? = some (hexDigit d)) ∧
    (a.toString = b.toString ↔ UsbDeviceId.opEq a b = true) := by
  refine ⟨?_, ?_, by decide, ?_⟩
  · rw [toString_eq a hav hap]; rfl
  · rw [toString_eq a hav hap]
  · rw [opEq_eq_true_iff]
    constructor
    · intro h
      rw [toString_eq a hav hap, toString_eq b hbv hbp] at h
      have hl := congrArg String.data h
      simp only [List.cons.injEq, and_true, true_and] at hl
      obtain ⟨v3, v2, v1, v0, p3, p2, p1, p0⟩ := hl
      have v3' := hexDigit_injective _ (by omega) _ (by omega) v3
      have v2' := hexDigit_injective _ (by omega) _ (by omega) v2
      have v1' := hexDigit_injective _ (by omega) _ (by omega) v1
      have v0' := hexDigit_injective _ (by omega) _ (by omega) v0
      have p3' := hexDigit_injective _ (by omega) _ (by omega) p3
      have p2' := hexDigit_injective _ (by omega) _ (by omega) p2
      have p1' := hexDigit_injective _ (by omega) _ (by omega) p1
      have p0' := hexDigit_injective _ (by omega) _ (by omega) p0
      constructor <;> omega
    · rintro ⟨h1, h2⟩
      have : a = b := by
        cases a; cases b; simp_all
      rw [this]

/-- C10 at the two accessory ids `18d1:2d00` and `18d1:2d01`. -/
theorem C10_toString_faithful_witness :
    (UsbDeviceId.ctor2 0x18D1 0x2D00).toString.length = 9 ∧
    (UsbDeviceId.ctor2 0x18D1 0x2D00).toString.data = "18d1:2d00".toList ∧
    ((UsbDeviceId.ctor2 0x18D1 0x2D00).toString = (UsbDeviceId.ctor2 0x18D1 0x2D01).toString ↔
      UsbDeviceId.opEq (UsbDeviceId.ctor2 0x18D1 0x2D00) (UsbDeviceId.ctor2 0x18D1 0x2D01)
        = true) := by
  have h := C10_toString_faithful (UsbDeviceId.ctor2 0x18D1 0x2D00)
    (UsbDeviceId.ctor2 0x18D1 0x2D01) (by decide) (by decide) (by decide) (by decide)
  refine ⟨h.1, ?_, h.2.2.2⟩
  rw [h.2.1]
  decide

end CardboardTethering
